import Mathlib

/-!
Verification of the OSCE study-buddy application (src/main.py) against its
specification. The Python source is shallowly embedded: case records become a
structure of optional fields (a JSON object with possibly-missing keys),
`dict.get(k, default)` becomes `Option.getD`, the session state becomes an
explicit structure with a step function over events, and the external OpenAI
call becomes an oracle function returning `Except` (any exception raised
inside the `try` block of `get_ai_response` is the `.error` case).
-/

namespace OSCE

/-- A chat message as stored in `st.session_state.messages` and sent upstream:
a dict with a `role` and a `content` key (main.py lines 390, 398-399, 404). -/
structure Msg where
  role : String
  content : String
deriving DecidableEq, Repr

/-- A case record parsed from a JSON case file. Every field the program reads
with `case_data.get(...)` is optional (`none` models a missing key); `age` is
the string rendering interpolated into the prompt. `vitals` models the
mapping of named vital signs (main.py line 360); it does not enter the
system prompt. -/
structure CaseData where
  case_id : Option String := none
  patient_name : Option String := none
  age : Option String := none
  gender : Option String := none
  chief_complaint : Option String := none
  presenting_history : Option String := none
  past_medical_history : Option (List String) := none
  social_history : Option String := none
  allergies : Option String := none
  script_instructions : Option String := none
  secret_info : Option String := none
  singlish_level : Option String := none
  vitals : List (String × String) := []
deriving DecidableEq, Repr

/-- `get_singlish_instruction(level)` (main.py lines 202-212), with the exact
triple-quoted strings of the source, embedded newlines and indentation
included. -/
def get_singlish_instruction (level : String) : String :=
  if level = "high" then
    "Use heavy Singlish expressions naturally. Include common phrases like 'lah', 'leh', 'lor', 'sia', 'can or not', 'how come', 'aiyo', 'walao'. \n        Mix English with occasional Chinese/Malay words. Speak in a very casual, local Singaporean manner."
  else if level = "moderate" then
    "Use moderate Singlish. Include occasional 'lah', 'leh', 'lor' at the end of sentences. \n        Speak in a casual but understandable Singaporean English style. Don't overdo the slang."
  else
    "Speak in standard English with minimal Singlish. You may occasionally use 'lah' or 'okay' in a Singaporean way, \n        but keep the language clear and professional."

/-- The `system_prompt` f-string assembled inside `get_ai_response`
(main.py lines 220-260): each `case_data.get(field, default)` is
`Option.getD`, `chr(10).join(...)` is `String.intercalate "\n"`, and the
language-style directive comes from `get_singlish_instruction` applied to
`case_data.get("singlish_level", "low")`. -/
def buildSystemPrompt (c : CaseData) : String :=
  "You are a standardized patient in an OSCE (Objective Structured Clinical Examination) simulation for medical students.\n\nCHARACTER PROFILE:\n- Name: "
  ++ c.patient_name.getD "Patient"
  ++ "\n- Age: " ++ c.age.getD "Unknown"
  ++ " years old\n- Gender: " ++ c.gender.getD "Unknown"
  ++ "\n- Chief Complaint: " ++ c.chief_complaint.getD "Not specified"
  ++ "\n\nPRESENTING HISTORY:\n" ++ c.presenting_history.getD "Not provided"
  ++ "\n\nPAST MEDICAL HISTORY:\n"
  ++ String.intercalate "\n" (c.past_medical_history.getD ["Not provided"])
  ++ "\n\nSOCIAL HISTORY:\n" ++ c.social_history.getD "Not provided"
  ++ "\n\nALLERGIES:\n" ++ c.allergies.getD "No known allergies"
  ++ "\n\nACTING INSTRUCTIONS:\n" ++ c.script_instructions.getD "Act as a cooperative patient."
  ++ "\n\nSECRET INFORMATION (only reveal if directly asked relevant questions):\n"
  ++ c.secret_info.getD "None"
  ++ "\n\nLANGUAGE STYLE:\n" ++ get_singlish_instruction (c.singlish_level.getD "low")
  ++ "\n\nIMPORTANT RULES:\n1. Stay in character at all times as the patient\n2. Only provide information when asked - don't volunteer everything at once\n3. Show appropriate emotions (pain, anxiety, etc.) based on your condition\n4. If asked about vitals or examination findings, say \"The doctor/nurse can check that\"\n5. Do not diagnose yourself or suggest what condition you might have\n6. Respond naturally as a real patient would - be conversational\n7. Keep responses concise (1-3 sentences usually) unless the question requires more detail\n8. If the student asks something inappropriate or off-topic, redirect politely as a patient would"

/-- The payload `messages=[{"role": "system", "content": system_prompt}, *messages]`
sent to the completion API (main.py lines 262-267). -/
def sentPayload (c : CaseData) (messages : List Msg) : List Msg :=
  { role := "system", content := buildSystemPrompt c } :: messages

/-- `get_ai_response(messages, case_data)` (main.py lines 215-275). The
external API (client construction, the `chat.completions.create` call and the
`response.choices[0].message.content` access — everything inside the `try`
block that can raise) is an oracle `api`; an exception `e` is `.error e`.
The fixed sampling constants (`model="gpt-4o-mini"`, `max_tokens=300`,
`temperature=0.7`) do not affect the control flow modelled here. -/
def get_ai_response (api : List Msg → Except String String)
    (messages : List Msg) (case_data : CaseData) : String :=
  match api (sentPayload case_data messages) with
  | Except.ok text => text
  | Except.error e =>
      "I'm sorry, I'm having trouble responding right now. (Error: " ++ e ++ ")"

/-- The case record with every optional field replaced by the documented
default the source substitutes for it (the second argument of each
`case_data.get` in main.py lines 227-247). -/
def withDefaults (c : CaseData) : CaseData :=
  { c with
    patient_name := some (c.patient_name.getD "Patient"),
    age := some (c.age.getD "Unknown"),
    gender := some (c.gender.getD "Unknown"),
    chief_complaint := some (c.chief_complaint.getD "Not specified"),
    presenting_history := some (c.presenting_history.getD "Not provided"),
    past_medical_history := some (c.past_medical_history.getD ["Not provided"]),
    social_history := some (c.social_history.getD "Not provided"),
    allergies := some (c.allergies.getD "No known allergies"),
    script_instructions := some (c.script_instructions.getD "Act as a cooperative patient."),
    secret_info := some (c.secret_info.getD "None") }

/-- Boolean prefix test on character lists (used to state substring facts
about the generated prompt text executably). -/
def isPrefixB : List Char → List Char → Bool
  | [], _ => true
  | _ :: _, [] => false
  | a :: as, b :: bs => a == b && isPrefixB as bs

/-- Helper for `containsB`: does `pat` occur in the list? -/
def containsAux (pat : List Char) : List Char → Bool
  | [] => pat.isEmpty
  | c :: rest => isPrefixB pat (c :: rest) || containsAux pat rest

/-- `containsB s sub` holds when `sub` occurs as a contiguous substring of
`s` (Python's `sub in s`). -/
def containsB (s sub : String) : Bool := containsAux sub.data s.data

/-- Python `str.strip()` whitespace (the ASCII whitespace characters CPython
strips: space, tab, newline, carriage return, vertical tab, form feed). -/
def pyIsSpace (c : Char) : Bool :=
  c == ' ' || c == '\t' || c == '\n' || c == '\x0d' || c == '\x0b' || c == '\x0c'

/-- Python `s.strip()`: removes leading and trailing whitespace. -/
def pyStrip (s : String) : String :=
  ⟨((s.data.dropWhile pyIsSpace).reverse.dropWhile pyIsSpace).reverse⟩

/-- A local wall-clock date-time, the input to
`datetime.now().strftime("%Y-%m-%d %H:%M:%S")` (main.py line 195). -/
structure PyDateTime where
  year : Nat
  month : Nat
  day : Nat
  hour : Nat
  minute : Nat
  second : Nat
deriving DecidableEq, Repr

/-- Zero-padded two-digit field of `strftime` (`%m`, `%d`, `%H`, `%M`, `%S`). -/
def pad2 (n : Nat) : String := if n < 10 then "0" ++ toString n else toString n

/-- Zero-padded four-digit year of `strftime` (`%Y`). -/
def pad4 (n : Nat) : String :=
  if n < 10 then "000" ++ toString n
  else if n < 100 then "00" ++ toString n
  else if n < 1000 then "0" ++ toString n
  else toString n

/-- `datetime.now().strftime("%Y-%m-%d %H:%M:%S")` applied to an explicit
date-time value. -/
def strftimeTimestamp (t : PyDateTime) : String :=
  pad4 t.year ++ "-" ++ pad2 t.month ++ "-" ++ pad2 t.day ++ " "
  ++ pad2 t.hour ++ ":" ++ pad2 t.minute ++ ":" ++ pad2 t.second

/-- `ensure_feedback_csv()` (main.py lines 182-189) on the feedback sink's
state: `none` models an absent `feedback.csv`, `some rows` its rows. An
absent file is created holding only the header row. -/
def ensure_feedback_csv (file : Option (List (List String))) : List (List String) :=
  match file with
  | none => [["timestamp", "feedback", "rating"]]
  | some rows => rows

/-- `save_feedback(feedback_text, rating)` (main.py lines 192-199): ensures
the CSV exists, then appends one `[timestamp, feedback, rating]` row. -/
def save_feedback (feedback_text rating : String) (now : PyDateTime)
    (file : Option (List (List String))) : List (List String) :=
  ensure_feedback_csv file ++ [[strftimeTimestamp now, feedback_text, rating]]

/-- The session state the page handlers mutate (`st.session_state` keys
`current_page`, `current_case_id`, `messages`, `feedback_submitted`),
together with the on-disk feedback sink. `current_case_id = none` models the
key being absent from the session dict. -/
structure AppState where
  current_page : String
  current_case_id : Option String
  messages : List Msg
  feedback_submitted : Bool
  feedback_file : Option (List (List String))
deriving Repr

/-- The fresh session: `current_page` set to "home" by `main()` (line 488),
no `current_case_id` key, empty message list, feedback not submitted; the
feedback sink starts in an arbitrary external state. -/
def initState (file : Option (List (List String))) : AppState :=
  { current_page := "home", current_case_id := none, messages := [],
    feedback_submitted := false, feedback_file := file }

/-- `ai_messages = [{"role": m["role"], "content": m["content"]} for m in
st.session_state.messages]` (main.py lines 398-399): the upstream view of the
turn sequence. -/
def toUpstreamMessages (msgs : List Msg) : List Msg :=
  msgs.map fun m => { role := m.role, content := m.content }

/-- The feedback form submit handler (main.py lines 469-475): a non-blank
text is saved through `save_feedback` and `feedback_submitted` is set; blank
text leaves all state alone and surfaces the error message (returned as the
second component). -/
def feedback_submit (st : AppState) (feedback_text rating : String)
    (now : PyDateTime) : AppState × Option String :=
  if pyStrip feedback_text ≠ "" then
    ({ st with
        feedback_file := some (save_feedback feedback_text rating now st.feedback_file),
        feedback_submitted := true }, none)
  else
    (st, some "Please enter your feedback before submitting.")

/-- One user interaction with the app, as handled by the page functions:
`selectCase` is the case-selector block of `osce_page` (lines 344-347),
`submit` the chat-input block (lines 388-404) with the completion API oracle
and the active case's record, `clearChat` the Clear Chat button (lines
410-413), `navigate` the navigation buttons, and `feedback` the feedback
form submit (lines 469-475). -/
inductive Event where
  | selectCase (id : String)
  | submit (prompt : String) (api : List Msg → Except String String) (c : CaseData)
  | clearChat
  | navigate (page : String)
  | feedback (text rating : String) (now : PyDateTime)

/-- The state transition of one event, following the handler code. -/
def step (st : AppState) : Event → AppState
  | Event.selectCase id =>
      if st.current_case_id = some id then st
      else { st with current_case_id := some id, messages := [] }
  | Event.submit prompt api c =>
      let msgs1 := st.messages ++ [{ role := "user", content := prompt }]
      let resp := get_ai_response api (toUpstreamMessages msgs1) c
      { st with messages := msgs1 ++ [{ role := "assistant", content := resp }] }
  | Event.clearChat => { st with messages := [] }
  | Event.navigate page => { st with current_page := page }
  | Event.feedback text rating now => (feedback_submit st text rating now).1

/-- An append operation on the turn sequence: the session's only two ways of
adding a turn (`appendUser`, main.py line 390; `appendAssistant`, line 404). -/
inductive TurnOp where
  | user (text : String)
  | assistant (text : String)

/-- Applying one append operation to the message list. -/
def applyOp (msgs : List Msg) : TurnOp → List Msg
  | TurnOp.user t => msgs ++ [{ role := "user", content := t }]
  | TurnOp.assistant t => msgs ++ [{ role := "assistant", content := t }]

/-- The `{role, content}` pair the spec says an append operation should
contribute to the upstream list (spec section 4.3). -/
def renderedTurn : TurnOp → Msg
  | TurnOp.user t => { role := "user", content := t }
  | TurnOp.assistant t => { role := "assistant", content := t }

/-- Boolean check that a message list is a strict user/assistant alternation
of even length starting with a user turn. -/
def altB : List Msg → Bool
  | [] => true
  | u :: a :: rest => u.role == "user" && a.role == "assistant" && altB rest
  | [_] => false

/-- A parsed case file: its directory entry name and the outcome of
`json.load` on its contents (`.error` models a raised parse/read exception,
carrying the exception's rendering). -/
structure CaseFile where
  filename : String
  parsed : Except String CaseData

/-- `filename.replace(".json", "")` on the character list: Python's
`str.replace` removes every (left-to-right, non-overlapping) occurrence. -/
def stripDotJson : List Char → List Char
  | '.' :: 'j' :: 's' :: 'o' :: 'n' :: rest => stripDotJson rest
  | c :: rest => c :: stripDotJson rest
  | [] => []

/-- `filename.replace(".json", "")` (main.py line 174). -/
def stripDotJsonStr (s : String) : String := ⟨stripDotJson s.data⟩

/-- `s.endswith(suffix)`. -/
def endsWithB (s suffix : String) : Bool := isPrefixB suffix.data.reverse s.data.reverse

/-- The key a loaded case is stored under:
`case_data.get("case_id", filename.replace(".json", ""))` (main.py line 174). -/
def caseKey (f : CaseFile) (d : CaseData) : String :=
  d.case_id.getD (stripDotJsonStr f.filename)

/-- Python `dict` assignment `cases[k] = v`: replace the value in place when
the key exists (its insertion position is kept), otherwise append. -/
def dictInsert (k : String) (v : CaseData) :
    List (String × CaseData) → List (String × CaseData)
  | [] => [(k, v)]
  | (k', v') :: rest =>
      if k' = k then (k, v) :: rest else (k', v') :: dictInsert k v rest

/-- The body of the `for filename in os.listdir(cases_dir)` loop of
`load_cases` (main.py lines 168-177): accumulates the case dict and the list
of `st.error` messages. -/
def loadStep (acc : List (String × CaseData) × List String) (f : CaseFile) :
    List (String × CaseData) × List String :=
  if endsWithB f.filename ".json" then
    match f.parsed with
    | Except.ok d => (dictInsert (caseKey f d) d acc.1, acc.2)
    | Except.error e => (acc.1, acc.2 ++ ["Error loading " ++ f.filename ++ ": " ++ e])
  else acc

/-- `load_cases()` (main.py lines 162-179). `none` models an absent `cases`
directory (`os.path.exists` false); `some files` its entries in the order
`os.listdir` enumerates them. Returns the case mapping and the reported
error messages. -/
def load_cases (dir : Option (List CaseFile)) :
    List (String × CaseData) × List String :=
  match dir with
  | none => ([], [])
  | some files => files.foldl loadStep ([], [])

end OSCE

namespace OSCE

/-- C1: when the API call raises, `get_ai_response` returns the apologetic
fallback with the raw error detail in parentheses, for every turn list and
case record. -/
theorem get_ai_response_fallback_on_error
    (api : List Msg → Except String String) (messages : List Msg)
    (c : CaseData) (e : String)
    (h : api (sentPayload c messages) = Except.error e) :
    get_ai_response api messages c =
      "I'm sorry, I'm having trouble responding right now. (Error: " ++ e ++ ")" := by
  simp [get_ai_response, h]

/-- Witness for C1 at a concrete always-failing API, empty turn list and
empty case record. -/
theorem get_ai_response_fallback_on_error_witness :
    get_ai_response (fun _ => Except.error "boom") [] {} =
      "I'm sorry, I'm having trouble responding right now. (Error: boom)" := by
  have h := get_ai_response_fallback_on_error (fun _ => Except.error "boom")
    [] {} "boom" rfl
  exact h.trans (by rfl)

end OSCE

namespace OSCE

/-- C3: the language-style directive is the three-tier mapping of the case's
Singlish level: `high` yields the heavy-dialect instruction (heavy Singlish
expressions, mixed Chinese/Malay words), `moderate` yields the
occasional-trailing-particles instruction, any other level — `low`
included — yields the standard-register instruction, which mentions no heavy
dialect markers; a case record without a `singlish_level` field is treated
exactly as level `low`. -/
theorem singlish_three_tier :
    (containsB (get_singlish_instruction "high") "heavy Singlish" = true) ∧
    (containsB (get_singlish_instruction "high") "Chinese/Malay" = true) ∧
    (containsB (get_singlish_instruction "moderate")
      "occasional 'lah', 'leh', 'lor' at the end of sentences" = true) ∧
    (containsB (get_singlish_instruction "low") "standard English" = true) ∧
    (containsB (get_singlish_instruction "low") "heavy" = false) ∧
    (containsB (get_singlish_instruction "low") "Chinese" = false) ∧
    (containsB (get_singlish_instruction "low") "Malay" = false) ∧
    (∀ lvl : String, lvl ≠ "high" → lvl ≠ "moderate" →
      get_singlish_instruction lvl = get_singlish_instruction "low") ∧
    (∀ c : CaseData, c.singlish_level = none →
      buildSystemPrompt c = buildSystemPrompt { c with singlish_level := some "low" }) := by
  refine ⟨by decide, by decide, by decide, by decide, by decide, by decide, by decide,
    ?_, ?_⟩
  · intro lvl h1 h2
    simp only [get_singlish_instruction, if_neg h1, if_neg h2]
    rfl
  · intro c h
    simp [buildSystemPrompt, h]

/-- Witness for C3: the two conditional conjuncts applied at a level that is
neither `high` nor `moderate` and at a case record with no `singlish_level`
field. -/
theorem singlish_three_tier_witness :
    get_singlish_instruction "zzz" = get_singlish_instruction "low" ∧
    buildSystemPrompt {} = buildSystemPrompt { singlish_level := some "low" } := by
  refine ⟨?_, ?_⟩
  · exact singlish_three_tier.2.2.2.2.2.2.2.1 "zzz" (by decide) (by decide)
  · exact singlish_three_tier.2.2.2.2.2.2.2.2 {} rfl

set_option maxRecDepth 100000 in
/-- C4: building the system prompt is total; a record with missing optional
fields produces the same prompt as the record with the documented defaults
filled in, and the prompt built from the fully-empty record contains every
documented default string in place. -/
theorem buildSystemPrompt_defaults :
    (∀ c : CaseData, buildSystemPrompt c = buildSystemPrompt (withDefaults c)) ∧
    (containsB (buildSystemPrompt {}) "- Name: Patient" = true) ∧
    (containsB (buildSystemPrompt {}) "- Age: Unknown years old" = true) ∧
    (containsB (buildSystemPrompt {}) "- Gender: Unknown" = true) ∧
    (containsB (buildSystemPrompt {}) "- Chief Complaint: Not specified" = true) ∧
    (containsB (buildSystemPrompt {}) "PRESENTING HISTORY:\nNot provided" = true) ∧
    (containsB (buildSystemPrompt {}) "PAST MEDICAL HISTORY:\nNot provided" = true) ∧
    (containsB (buildSystemPrompt {}) "SOCIAL HISTORY:\nNot provided" = true) ∧
    (containsB (buildSystemPrompt {}) "ALLERGIES:\nNo known allergies" = true) ∧
    (containsB (buildSystemPrompt {}) "ACTING INSTRUCTIONS:\nAct as a cooperative patient." = true) ∧
    (containsB (buildSystemPrompt {})
      "SECRET INFORMATION (only reveal if directly asked relevant questions):\nNone" = true) := by
  refine ⟨?_, by decide, by decide, by decide, by decide, by decide, by decide,
    by decide, by decide, by decide, by decide⟩
  intro c
  simp [buildSystemPrompt, withDefaults]

end OSCE

namespace OSCE

theorem toUpstreamMessages_eq (msgs : List Msg) : toUpstreamMessages msgs = msgs :=
  List.map_id msgs

/-- C2: switching to a case id different from the active one empties the
turn sequence: after `selectCase A; appendUser x; selectCase B` with
`B ≠ A`, the upstream message list is empty, from any prior session state. -/
theorem case_switch_clears_history (st : AppState) (A B x : String)
    (api : List Msg → Except String String) (c : CaseData) (h : B ≠ A) :
    toUpstreamMessages
      ((step (step (step st (Event.selectCase A)) (Event.submit x api c))
        (Event.selectCase B)).messages) = [] := by
  set st2 := step (step st (Event.selectCase A)) (Event.submit x api c) with hst2
  have h2 : st2.current_case_id = some A := by
    rw [hst2]
    by_cases hA : st.current_case_id = some A <;> simp [step, hA]
  have h3 : ¬ (st2.current_case_id = some B) := by
    rw [h2]
    intro hc
    exact h (Option.some.inj hc).symm
  simp [step, h3, toUpstreamMessages]

/-- Witness for C2 at a fresh session, cases "a" then "b". -/
theorem case_switch_clears_history_witness :
    toUpstreamMessages ((step (step (step (initState none) (Event.selectCase "a"))
      (Event.submit "hi" (fun _ => Except.ok "yo") {})) (Event.selectCase "b")).messages) = [] :=
  case_switch_clears_history (initState none) "a" "b" "hi"
    (fun _ => Except.ok "yo") {} (by decide)

/-- The messages after folding append operations over an initial list. -/
theorem foldl_applyOp : ∀ (ops : List TurnOp) (init : List Msg),
    ops.foldl applyOp init = init ++ ops.map renderedTurn
  | [], init => by simp
  | op :: ops, init => by
      cases op <;>
        simp [applyOp, renderedTurn, foldl_applyOp ops, List.append_assoc]

/-- C5: for any interleaving of user/assistant appends, the payload sent on a
completion call is the system prompt followed by every recorded turn as a
{role, content} pair, in exact insertion order, with no truncation. -/
theorem upstream_full_history (ops : List TurnOp) (c : CaseData) :
    sentPayload c (toUpstreamMessages (ops.foldl applyOp [])) =
      { role := "system", content := buildSystemPrompt c } :: ops.map renderedTurn := by
  rw [toUpstreamMessages_eq, foldl_applyOp]
  simp [sentPayload]

/-- C8: the Clear Chat action empties the turn sequence and changes nothing
else: active case id, current page, feedback flag and feedback sink are all
untouched. -/
theorem clear_chat_frame (st : AppState) :
    (step st Event.clearChat).messages = [] ∧
    (step st Event.clearChat).current_case_id = st.current_case_id ∧
    (step st Event.clearChat).current_page = st.current_page ∧
    (step st Event.clearChat).feedback_submitted = st.feedback_submitted ∧
    (step st Event.clearChat).feedback_file = st.feedback_file := by
  refine ⟨?_, ?_, ?_, ?_, ?_⟩ <;> rfl

theorem altB_append : ∀ (l : List Msg) (p r : String), altB l = true →
    altB (l ++ [{ role := "user", content := p },
      { role := "assistant", content := r }]) = true
  | [], _, _, _ => rfl
  | [_], _, _, h => by simp [altB] at h
  | u :: a :: tl, p, r, h => by
      simp only [altB, Bool.and_eq_true, beq_iff_eq] at h
      simp only [List.cons_append, altB, Bool.and_eq_true, beq_iff_eq]
      exact ⟨h.1, altB_append tl p r h.2⟩

theorem altB_step (st : AppState) (ev : Event) (h : altB st.messages = true) :
    altB (step st ev).messages = true := by
  cases ev with
  | selectCase id =>
      simp only [step]
      split
      · exact h
      · rfl
  | submit p api c =>
      simp only [step]
      rw [List.append_assoc]
      exact altB_append st.messages p _ h
  | clearChat => rfl
  | navigate page => exact h
  | feedback t r now =>
      simp only [step, feedback_submit]
      split <;> exact h

theorem altB_foldl : ∀ (evs : List Event) (st : AppState), altB st.messages = true →
    altB ((evs.foldl step st).messages) = true
  | [], _, h => h
  | ev :: evs, st, h => altB_foldl evs (step st ev) (altB_step st ev h)

/-- C9: in every session state reachable from a fresh session, the turn
sequence is a strict user/assistant alternation of even length starting with
a user turn; each chat submission appends exactly one user turn and one
assistant turn (the completion operation always yields a string), and the
other mutations reset the sequence. -/
theorem session_turns_alternate (evs : List Event) (file : Option (List (List String))) :
    altB ((evs.foldl step (initState file)).messages) = true ∧
    (∀ (st : AppState) (p : String) (api : List Msg → Except String String) (c : CaseData),
      (step st (Event.submit p api c)).messages =
        st.messages ++ [{ role := "user", content := p },
          { role := "assistant",
            content := get_ai_response api
              (toUpstreamMessages (st.messages ++ [{ role := "user", content := p }])) c }]) := by
  refine ⟨altB_foldl evs (initState file) rfl, ?_⟩
  intro st p api c
  simp [step, List.append_assoc]

end OSCE

namespace OSCE

theorem mem_keys_dictInsert_self : ∀ (l : List (String × CaseData)) (k : String) (v : CaseData),
    k ∈ (dictInsert k v l).map Prod.fst
  | [], k, v => by simp [dictInsert]
  | (k0, v0) :: rest, k, v => by
      by_cases hk : k0 = k
      · simp [dictInsert, hk]
      · simp only [dictInsert, if_neg hk, List.map_cons, List.mem_cons]
        exact Or.inr (mem_keys_dictInsert_self rest k v)

theorem mem_keys_dictInsert_mono :
    ∀ (l : List (String × CaseData)) (k k' : String) (v : CaseData),
    k' ∈ l.map Prod.fst → k' ∈ (dictInsert k v l).map Prod.fst
  | [], _, _, _, h => by simp at h
  | (k0, v0) :: rest, k, k', v, h => by
      by_cases hk : k0 = k
      · simp only [dictInsert, if_pos hk, List.map_cons, List.mem_cons]
        simp only [List.map_cons, List.mem_cons] at h
        rcases h with h | h
        · exact Or.inl (h.trans hk)
        · exact Or.inr h
      · simp only [dictInsert, if_neg hk, List.map_cons, List.mem_cons] at h ⊢
        rcases h with h | h
        · exact Or.inl h
        · exact Or.inr (mem_keys_dictInsert_mono rest k k' v h)

theorem mem_keys_loadStep (acc : List (String × CaseData) × List String)
    (f : CaseFile) (k : String) (h : k ∈ acc.1.map Prod.fst) :
    k ∈ (loadStep acc f).1.map Prod.fst := by
  unfold loadStep
  by_cases hj : endsWithB f.filename ".json" = true
  · rw [if_pos hj]
    rcases hp : f.parsed with e | d
    · exact h
    · exact mem_keys_dictInsert_mono _ _ _ _ h
  · rw [if_neg hj]; exact h

theorem mem_keys_foldl :
    ∀ (files : List CaseFile) (acc : List (String × CaseData) × List String) (k : String),
    k ∈ acc.1.map Prod.fst → k ∈ (files.foldl loadStep acc).1.map Prod.fst
  | [], _, _, h => h
  | f :: files, acc, k, h =>
      mem_keys_foldl files (loadStep acc f) k (mem_keys_loadStep acc f k h)

theorem valid_key_loaded :
    ∀ (files : List CaseFile) (acc : List (String × CaseData) × List String)
      (f : CaseFile) (d : CaseData),
    f ∈ files → endsWithB f.filename ".json" = true → f.parsed = Except.ok d →
    caseKey f d ∈ (files.foldl loadStep acc).1.map Prod.fst
  | [], _, f, _, hmem, _, _ => absurd hmem (List.not_mem_nil f)
  | g :: files, acc, f, d, hmem, hj, hp => by
      rcases List.mem_cons.mp hmem with rfl | hmem'
      · show caseKey f d ∈ (files.foldl loadStep (loadStep acc f)).1.map Prod.fst
        refine mem_keys_foldl files (loadStep acc f) (caseKey f d) ?_
        unfold loadStep
        rw [if_pos hj, hp]
        exact mem_keys_dictInsert_self _ _ _
      · exact valid_key_loaded files (loadStep acc g) f d hmem' hj hp

/-- C6: `load_cases` is total and non-fatal on bad input: an absent cases
directory yields the empty mapping with no error; with one valid and one
malformed `.json` file the catalog holds exactly the valid case and one
error is reported for the malformed file; and in general every valid `.json`
file's case id appears among the keys of the returned mapping. -/
theorem load_cases_resilient :
    (load_cases none = ([], [])) ∧
    (∀ (v m : CaseFile) (d : CaseData) (e : String),
      endsWithB v.filename ".json" = true → v.parsed = Except.ok d →
      endsWithB m.filename ".json" = true → m.parsed = Except.error e →
      load_cases (some [v, m]) =
        ([(caseKey v d, d)], ["Error loading " ++ m.filename ++ ": " ++ e])) ∧
    (∀ (files : List CaseFile) (f : CaseFile) (d : CaseData),
      f ∈ files → endsWithB f.filename ".json" = true → f.parsed = Except.ok d →
      caseKey f d ∈ (load_cases (some files)).1.map Prod.fst) := by
  refine ⟨rfl, ?_, ?_⟩
  · intro v m d e hv1 hv2 hm1 hm2
    simp [load_cases, loadStep, hv1, hv2, hm1, hm2, dictInsert]
  · intro files f d hmem hj hp
    exact valid_key_loaded files ([], []) f d hmem hj hp

/-- Witness for C6: a directory holding one well-formed and one malformed
case file yields exactly the valid case plus one reported error. -/
theorem load_cases_resilient_witness :
    load_cases (some [⟨"case1.json", Except.ok { case_id := some "case1" }⟩,
        ⟨"bad.json", Except.error "oops"⟩]) =
      ([("case1", { case_id := some "case1" })], ["Error loading bad.json: oops"]) := by
  have h := load_cases_resilient.2.1 ⟨"case1.json", Except.ok { case_id := some "case1" }⟩
    ⟨"bad.json", Except.error "oops"⟩ { case_id := some "case1" } "oops"
    (by decide) rfl (by decide) rfl
  exact h.trans (by rfl)

/-- C10: when two `.json` files both parse and resolve to the same case key,
the mapping keeps only the later file's record — the earlier one is silently
overwritten, and the catalog has fewer entries than there are valid files. -/
theorem load_cases_last_wins (f1 f2 : CaseFile) (d1 d2 : CaseData) (k : String)
    (h1 : endsWithB f1.filename ".json" = true) (h2 : f1.parsed = Except.ok d1)
    (h3 : endsWithB f2.filename ".json" = true) (h4 : f2.parsed = Except.ok d2)
    (hk1 : caseKey f1 d1 = k) (hk2 : caseKey f2 d2 = k) :
    load_cases (some [f1, f2]) = ([(k, d2)], []) ∧
    (load_cases (some [f1, f2])).1.length = 1 := by
  have heq : load_cases (some [f1, f2]) = ([(k, d2)], []) := by
    simp [load_cases, loadStep, h1, h2, h3, h4, hk1, hk2, dictInsert]
  exact ⟨heq, by rw [heq]; rfl⟩

/-- Witness for C10: two valid files with explicit case id "x"; the second
file's record is the one kept. -/
theorem load_cases_last_wins_witness :
    load_cases (some [⟨"a.json", Except.ok { case_id := some "x" }⟩,
        ⟨"b.json", Except.ok { case_id := some "x", patient_name := some "Tan" }⟩]) =
      ([("x", { case_id := some "x", patient_name := some "Tan" })], []) :=
  (load_cases_last_wins ⟨"a.json", Except.ok { case_id := some "x" }⟩
    ⟨"b.json", Except.ok { case_id := some "x", patient_name := some "Tan" }⟩
    { case_id := some "x" } { case_id := some "x", patient_name := some "Tan" } "x"
    (by decide) rfl (by decide) rfl rfl rfl).1

/-- C7: submitting blank (empty or whitespace-only) feedback leaves the
whole state — the feedback sink included — unchanged and surfaces the error
message; submitting non-blank feedback appends exactly one
`[timestamp, text, rating]` row, with the timestamp in
`%Y-%m-%d %H:%M:%S` form, and shows no error. -/
theorem feedback_validation (st : AppState) (text rating : String) (now : PyDateTime) :
    (pyStrip text = "" →
      feedback_submit st text rating now =
        (st, some "Please enter your feedback before submitting.")) ∧
    (pyStrip text ≠ "" → ∀ rows, st.feedback_file = some rows →
      (feedback_submit st text rating now).1.feedback_file =
        some (rows ++ [[strftimeTimestamp now, text, rating]]) ∧
      (feedback_submit st text rating now).2 = none) := by
  constructor
  · intro h
    simp [feedback_submit, h]
  · intro h rows hrows
    simp [feedback_submit, h, save_feedback, ensure_feedback_csv, hrows]

/-- Witness for C7: whitespace-only feedback is rejected and non-blank
feedback appends exactly one timestamped row, at concrete inputs. -/
theorem feedback_validation_witness :
    feedback_submit (initState (some [["timestamp", "feedback", "rating"]])) "   " "Good"
        ⟨2026, 10, 12, 9, 30, 5⟩ =
      (initState (some [["timestamp", "feedback", "rating"]]),
        some "Please enter your feedback before submitting.") ∧
    (feedback_submit (initState (some [["timestamp", "feedback", "rating"]])) "Great app"
        "Good" ⟨2026, 10, 12, 9, 30, 5⟩).1.feedback_file =
      some [["timestamp", "feedback", "rating"],
        ["2026-10-12 09:30:05", "Great app", "Good"]] := by
  constructor
  · exact (feedback_validation (initState (some [["timestamp", "feedback", "rating"]]))
      "   " "Good" ⟨2026, 10, 12, 9, 30, 5⟩).1 (by decide)
  · have h := ((feedback_validation (initState (some [["timestamp", "feedback", "rating"]]))
      "Great app" "Good" ⟨2026, 10, 12, 9, 30, 5⟩).2 (by decide)
      [["timestamp", "feedback", "rating"]] rfl).1
    exact h.trans (by rfl)

end OSCE
